import Mathlib

set_option autoImplicit false

/-!
Shallow embedding of the Typeahead interaction engine
(`src/packages/components/src/typeahead/Typeahead.tsx`) and the bundled mock
search service (`searchItems` in the same bundle), together with proofs about
the engine's behaviour.

The engine's React state hooks become the fields of `EngineState`; each event
handler becomes a pure function on that state.  Asynchronous fetches are
modelled by a machine (`Machine`, `stepEvent`) in which issuing a fetch and a
fetch's resolution are separate events, since the JavaScript event loop
interleaves them; the debounce timer is modelled with explicit time in
`DebounceState`.
-/

namespace Typeahead

/-! ### Data model (`types.ts`): `SearchItem` used by the mock service. -/

structure SearchItem where
  id : String
  label : String
  value : String
  category : String
  description : String
deriving DecidableEq

/-! ### JS `String.prototype.includes`, on character lists. -/

def charsStartWith : List Char → List Char → Bool
  | _, [] => true
  | [], _ :: _ => false
  | c :: cs, d :: ds => c == d && charsStartWith cs ds

def charsHaveSub : List Char → List Char → Bool
  | [], needle => needle.isEmpty
  | hay@(_ :: rest), needle => charsStartWith hay needle || charsHaveSub rest needle

def strIncludes (hay needle : String) : Bool :=
  charsHaveSub hay.toList needle.toList

/-! ### Mock data (`MOCK_ITEMS` in the api service). -/

def MOCK_ITEMS : List SearchItem :=
  [⟨"1", "React", "react", "Library",
     "A JavaScript library for building user interfaces"⟩,
   ⟨"2", "Vue", "vue", "Framework", "The Progressive JavaScript Framework"⟩,
   ⟨"3", "Angular", "angular", "Framework",
     "Platform for building mobile and desktop web applications"⟩,
   ⟨"4", "Svelte", "svelte", "Framework", "Cybernetically enhanced web apps"⟩,
   ⟨"5", "Next.js", "nextjs", "Framework", "The React Framework for Production"⟩,
   ⟨"6", "TypeScript", "typescript", "Language", "Typed superset of JavaScript"⟩,
   ⟨"7", "TailwindCSS", "tailwindcss", "CSS Framework",
     "Utility-first CSS framework"⟩,
   ⟨"8", "Vite", "vite", "Build Tool", "Next Generation Frontend Tooling"⟩]

/-- JS `String.prototype.toLowerCase` (character-wise, ASCII-faithful). -/
def jsToLower (s : String) : String :=
  ⟨s.data.map Char.toLower⟩

def trimChars (cs : List Char) : List Char :=
  ((cs.dropWhile Char.isWhitespace).reverse.dropWhile Char.isWhitespace).reverse

/-- JS `String.prototype.trim`: strip whitespace from both ends. -/
def jsTrim (s : String) : String :=
  ⟨trimChars s.data⟩

/-- `String(query || '').trim().toLowerCase()` from `searchItems`. -/
def sanitizeQuery (query : String) : String :=
  jsToLower (jsTrim query)

/-- The haystack built in the `filter` callback of `searchItems`:
``` `${item.label} ${item.value} ${item.category} ${item.description || ''}`.toLowerCase() ```
(every mock item has a non-empty description, so `|| ''` is the identity here). -/
def searchableText (item : SearchItem) : String :=
  jsToLower (item.label ++ " " ++ item.value ++ " " ++ item.category ++ " "
    ++ item.description)

/-- `Math.min(Math.max(Number(limit) || 10, 1), 100)`: a zero (falsy) limit
falls back to the default 10 before clamping. -/
def validLimit (limit : Int) : Nat :=
  (min (max (if limit = 0 then 10 else limit) 1) 100).toNat

/-- The mock search endpoint `searchItems` (latency dropped; the returned
promise's value only). -/
def searchItems (query : String) (limit : Int := 10) : List SearchItem :=
  if sanitizeQuery query = "" then []
  else
    (MOCK_ITEMS.filter
        (fun item => strIncludes (searchableText item) (sanitizeQuery query))).take
      (validLimit limit)

/-- The spec's clamp "limit clamped to [1,100]" applied literally. -/
def clampLimit (limit : Int) : Nat :=
  (min (max limit 1) 100).toNat

/-- `searchItems` as the spec describes it, for comparison: matches filtered
in mock-data order, truncated to the limit clamped into [1,100] with no
special case for a zero limit. -/
def searchItemsClaimed (query : String) (limit : Int := 10) : List SearchItem :=
  if jsToLower (jsTrim query) = "" then []
  else
    (MOCK_ITEMS.filter
        (fun item => strIncludes (searchableText item) (jsToLower (jsTrim query)))).take
      (clampLimit limit)

/-- `searchItems` as the spec describes it, amended: a zero (falsy) limit is
replaced by the default 10 before clamping into [1,100]. -/
def searchItemsAmended (query : String) (limit : Int := 10) : List SearchItem :=
  if jsToLower (jsTrim query) = "" then []
  else
    (MOCK_ITEMS.filter
        (fun item => strIncludes (searchableText item) (jsToLower (jsTrim query)))).take
      (clampLimit (if limit = 0 then 10 else limit))

/-! ### Engine constants and configuration validation (Typeahead.tsx). -/

def DEBOUNCE_MS : Int := 300

def MIN_QUERY_LENGTH : Int := 1

def MAX_RESULTS : Int := 10

/-- `Math.max(1, Math.min(maxResults, 100))`. -/
def validMaxResults (maxResults : Int) : Int :=
  max 1 (min maxResults 100)

/-- `Math.max(0, debounceMs)`. -/
def validDebounceMs (debounceMs : Int) : Int :=
  max 0 debounceMs

/-- `Math.max(0, minQueryLength)`. -/
def validMinQueryLength (minQueryLength : Int) : Int :=
  max 0 minQueryLength

structure Config where
  maxResults : Int
  debounceMs : Int
  minQueryLength : Int
deriving DecidableEq

def defaultConfig : Config :=
  ⟨MAX_RESULTS, DEBOUNCE_MS, MIN_QUERY_LENGTH⟩

/-! ### Thrown JS values and `err instanceof Error ? err : new Error(String(err))`. -/

inductive JsErr where
  | errorVal (msg : String)
  | otherVal (s : String)
deriving DecidableEq

def coerceErr : JsErr → JsErr
  | .errorVal m => .errorVal m
  | .otherVal s => .errorVal s

/-! ### Engine state: the six `useState` hooks of the component. -/

structure EngineState (T : Type) where
  query : String
  results : List T
  isOpen : Bool
  isLoading : Bool
  selectedIndex : Int
  error : Option String
deriving DecidableEq

/-- The guard `searchQuery.length < validMinQueryLength` in `handleSearch`. -/
def belowMinQuery (minQueryLength : Int) (searchQuery : String) : Bool :=
  decide ((searchQuery.length : Int) < validMinQueryLength minQueryLength)

/-- The early-return branch of `handleSearch` for queries below the minimum
length: clear results, close dropdown, clear error; nothing else changes. -/
def searchGuardApply {T : Type} (st : EngineState T) : EngineState T :=
  { st with results := [], isOpen := false, error := none }

/-- `handleSearch` before the `await`: `setIsLoading(true); setError(null)`. -/
def searchBegin {T : Type} (st : EngineState T) : EngineState T :=
  { st with isLoading := true, error := none }

/-- `handleSearch` when the fetch resolves: `setResults(items);
setIsOpen(items.length > 0); setSelectedIndex(-1)` and the `finally`
`setIsLoading(false)`. -/
def searchResolveOk {T : Type} (items : List T) (st : EngineState T) : EngineState T :=
  { st with results := items, isOpen := decide (0 < items.length),
            selectedIndex := -1, isLoading := false }

/-- `handleSearch` when the fetch rejects: the `catch` block plus the
`finally`; the second component is the argument passed to `onError`. -/
def searchResolveErr {T : Type} (e : JsErr) (st : EngineState T) :
    EngineState T × JsErr :=
  ({ st with error := some "Failed to fetch search results", results := [],
             isLoading := false },
   coerceErr e)

/-- `handleSelectItem`; the second component is the argument passed to
`onSelect`. -/
def handleSelectItem {T : Type} (idOf : T → String) (item : T)
    (st : EngineState T) : EngineState T × Option T :=
  ({ st with query := idOf item, isOpen := false, results := [],
             selectedIndex := -1 },
   some item)

inductive Key where
  | arrowDown
  | arrowUp
  | enter
  | escape
  | other
deriving DecidableEq

/-- `handleKeyDown`; the second component is the argument passed to
`onSelect` when Enter commits a selection. -/
def handleKeyDown {T : Type} (idOf : T → String) (k : Key)
    (st : EngineState T) : EngineState T × Option T :=
  match k with
  | .arrowDown =>
      ({ st with selectedIndex :=
            if st.selectedIndex < (st.results.length : Int) - 1 then
              st.selectedIndex + 1
            else st.selectedIndex },
       none)
  | .arrowUp =>
      ({ st with selectedIndex :=
            if 0 < st.selectedIndex then st.selectedIndex - 1 else -1 },
       none)
  | .enter =>
      if 0 ≤ st.selectedIndex then
        match st.results[st.selectedIndex.toNat]? with
        | some item => handleSelectItem idOf item st
        | none => (st, none)
      else (st, none)
  | .escape => ({ st with isOpen := false, selectedIndex := -1 }, none)
  | .other => (st, none)

/-- `handleClear` (the input-focus side effect is not state). -/
def handleClear {T : Type} (st : EngineState T) : EngineState T :=
  { st with query := "", results := [], isOpen := false, selectedIndex := -1 }

/-- The `onMouseEnter={() => setSelectedIndex(index)}` handler of a rendered
result row. -/
def handleHover {T : Type} (i : Nat) (st : EngineState T) : EngineState T :=
  { st with selectedIndex := (i : Int) }

/-! ### Event-loop machine.

`timer` is the pending debounce callback's captured value; `pending` lists the
in-flight fetch-strategy calls as (query, limit) pairs in issue order. -/

structure Machine (T : Type) where
  st : EngineState T
  timer : Option String
  pending : List (String × Int)
deriving DecidableEq

def initMachine (T : Type) : Machine T :=
  ⟨⟨"", [], false, false, -1, none⟩, none, []⟩

inductive MEvent (T : Type) where
  | input (v : String)
  | fire
  | resolveOk (i : Nat) (items : List T)
  | resolveErr (i : Nat) (e : JsErr)
  | key (k : Key)
  | hover (i : Nat)
  | click (i : Nat)
  | clear

/-- One event-loop callback.  `input` is `handleInputChange` (sets the query,
cancels and restarts the timer); `fire` is the debounce timer running
`handleSearch` up to its `await`, appending an in-flight fetch unless the
minimum-length guard takes the local path; `resolveOk`/`resolveErr` resolve
any in-flight fetch — the code has no staleness check, so the resolution is
applied unconditionally; `hover` and `click` are only possible on a rendered
row (dropdown open, not loading, index in range). -/
def stepEvent {T : Type} (idOf : T → String) (cfg : Config) (m : Machine T) :
    MEvent T → Machine T
  | .input v => { m with st := { m.st with query := v }, timer := some v }
  | .fire =>
      match m.timer with
      | none => m
      | some v =>
          if belowMinQuery cfg.minQueryLength v then
            { m with st := searchGuardApply m.st, timer := none }
          else
            { m with st := searchBegin m.st, timer := none,
                     pending := m.pending ++ [(v, validMaxResults cfg.maxResults)] }
  | .resolveOk i items =>
      if i < m.pending.length then
        { m with st := searchResolveOk items m.st, pending := m.pending.eraseIdx i }
      else m
  | .resolveErr i e =>
      if i < m.pending.length then
        { m with st := (searchResolveErr e m.st).1, pending := m.pending.eraseIdx i }
      else m
  | .key k => { m with st := (handleKeyDown idOf k m.st).1 }
  | .hover i =>
      if m.st.isOpen = true ∧ m.st.isLoading = false ∧ i < m.st.results.length then
        { m with st := handleHover i m.st }
      else m
  | .click i =>
      if m.st.isOpen = true ∧ m.st.isLoading = false then
        match m.st.results[i]? with
        | some item => { m with st := (handleSelectItem idOf item m.st).1 }
        | none => m
      else m
  | .clear => { m with st := handleClear m.st }

/-- A concrete item shape for running the machine: just the mandatory id. -/
structure Item where
  id : String
deriving DecidableEq

/-- Run the machine from the fresh-mount state under the default
configuration. -/
def mrun (events : List (MEvent Item)) : Machine Item :=
  events.foldl (stepEvent Item.id defaultConfig) (initMachine Item)

/-! ### Debounce timing model.

`timer = some (deadline, value)`: a `setTimeout` scheduled to run
`handleSearch value` at `deadline`.  `fetchLog` records the fetch-strategy
invocations (time, query) that `handleSearch` actually makes. -/

structure DebounceState where
  timer : Option (Nat × String)
  fetchLog : List (Nat × String)
deriving DecidableEq

/-- If the pending timer's deadline has passed by time `t`, it has already
fired: `handleSearch` ran, invoking the fetch strategy unless the
minimum-length guard took the local path. -/
def fireDue (minQueryLength : Int) (t : Nat) (ds : DebounceState) : DebounceState :=
  match ds.timer with
  | some (deadline, v) =>
      if deadline ≤ t then
        ⟨none,
         if belowMinQuery minQueryLength v then ds.fetchLog
         else ds.fetchLog ++ [(deadline, v)]⟩
      else ds
  | none => ds

/-- A keystroke at time `ev.1` with input value `ev.2`: any timer due before
it has fired; `clearTimeout` discards a still-pending timer; `setTimeout`
schedules a new one `validDebounceMs` later. -/
def keyStroke (debounceMs : Int) (minQueryLength : Int) (ds : DebounceState)
    (ev : Nat × String) : DebounceState :=
  { fireDue minQueryLength ev.1 ds with
      timer := some (ev.1 + (validDebounceMs debounceMs).toNat, ev.2) }

/-- Let the final pending timer (if any) fire at its deadline. -/
def flushTimer (minQueryLength : Int) (ds : DebounceState) : DebounceState :=
  match ds.timer with
  | some (deadline, v) =>
      ⟨none,
       if belowMinQuery minQueryLength v then ds.fetchLog
       else ds.fetchLog ++ [(deadline, v)]⟩
  | none => ds

/-- The fetch-strategy invocations produced by a finite sequence of
keystrokes followed by quiescence. -/
def debounceRun (debounceMs : Int) (minQueryLength : Int)
    (events : List (Nat × String)) : List (Nat × String) :=
  (flushTimer minQueryLength
      (events.foldl (keyStroke debounceMs minQueryLength) ⟨none, []⟩)).fetchLog

/-- Each keystroke of the sequence arrives strictly before the debounce timer
started by the previous keystroke would fire. -/
def withinBurst (delay : Nat) : List (Nat × String) → Bool
  | [] => true
  | [_] => true
  | a :: b :: rest => decide (b.1 < a.1 + delay) && withinBurst delay (b :: rest)

/-! ## Helper lemmas. -/

theorem step_selectedIndex_ge {T : Type} (idOf : T → String) (cfg : Config)
    (m : Machine T) (e : MEvent T) (h : -1 ≤ m.st.selectedIndex) :
    -1 ≤ (stepEvent idOf cfg m e).st.selectedIndex := by
  cases e with
  | input v => simpa [stepEvent] using h
  | fire =>
      rcases ht : m.timer with _ | v
      · simpa [stepEvent, ht] using h
      · simp only [stepEvent, ht]
        split
        · simpa [searchGuardApply] using h
        · simpa [searchBegin] using h
  | resolveOk i items =>
      simp only [stepEvent]
      split
      · simp [searchResolveOk]
      · exact h
  | resolveErr i e' =>
      simp only [stepEvent]
      split
      · simpa [searchResolveErr] using h
      · exact h
  | key k =>
      cases k with
      | arrowDown =>
          simp only [stepEvent, handleKeyDown]
          split <;> omega
      | arrowUp =>
          simp only [stepEvent, handleKeyDown]
          split <;> omega
      | enter =>
          simp only [stepEvent, handleKeyDown]
          split
          · split
            · simp [handleSelectItem]
            · exact h
          · exact h
      | escape => simp [stepEvent, handleKeyDown]
      | other => simpa [stepEvent, handleKeyDown] using h
  | hover i =>
      simp only [stepEvent]
      split
      · simp [handleHover]
        omega
      · exact h
  | click i =>
      simp only [stepEvent]
      split
      · split
        · simp [handleSelectItem]
        · exact h
      · exact h
  | clear => simp [stepEvent, handleClear]

theorem run_selectedIndex_ge {T : Type} (idOf : T → String) (cfg : Config) :
    ∀ (events : List (MEvent T)) (m : Machine T), -1 ≤ m.st.selectedIndex →
      -1 ≤ (events.foldl (stepEvent idOf cfg) m).st.selectedIndex := by
  intro events
  induction events with
  | nil => exact fun m h => h
  | cons e rest ih =>
      intro m h
      rw [List.foldl_cons]
      exact ih _ (step_selectedIndex_ge idOf cfg m e h)

/-- Fold of `handleKeyDown` over a keystroke sequence (state component only). -/
def applyKeys {T : Type} (idOf : T → String) (ks : List Key)
    (st : EngineState T) : EngineState T :=
  ks.foldl (fun s k => (handleKeyDown idOf k s).1) st

theorem arrow_step_bounds {T : Type} (idOf : T → String) (st : EngineState T)
    (k : Key) (hk : k = Key.arrowDown ∨ k = Key.arrowUp)
    (h1 : -1 ≤ st.selectedIndex)
    (h2 : st.selectedIndex ≤ (st.results.length : Int) - 1) :
    (handleKeyDown idOf k st).1.results = st.results ∧
    -1 ≤ (handleKeyDown idOf k st).1.selectedIndex ∧
    (handleKeyDown idOf k st).1.selectedIndex ≤ (st.results.length : Int) - 1 := by
  rcases hk with rfl | rfl <;>
    exact ⟨rfl, by simp only [handleKeyDown]; split <;> omega,
      by simp only [handleKeyDown]; split <;> omega⟩

theorem applyKeys_arrow_bounds {T : Type} (idOf : T → String) :
    ∀ (ks : List Key) (st : EngineState T),
      (∀ k ∈ ks, k = Key.arrowDown ∨ k = Key.arrowUp) →
      -1 ≤ st.selectedIndex → st.selectedIndex ≤ (st.results.length : Int) - 1 →
      (applyKeys idOf ks st).results = st.results ∧
      -1 ≤ (applyKeys idOf ks st).selectedIndex ∧
      (applyKeys idOf ks st).selectedIndex ≤ (st.results.length : Int) - 1 := by
  intro ks
  induction ks with
  | nil => exact fun st _ h1 h2 => ⟨rfl, h1, h2⟩
  | cons k rest ih =>
      intro st hks h1 h2
      obtain ⟨hr, hb1, hb2⟩ :=
        arrow_step_bounds idOf st k (hks k (List.mem_cons_self k rest)) h1 h2
      have hrec := ih ((handleKeyDown idOf k st).1)
        (fun k' hk' => hks k' (List.mem_cons_of_mem k hk')) hb1 (by rw [hr]; exact hb2)
      rw [hr] at hrec
      have hfold : applyKeys idOf (k :: rest) st =
          applyKeys idOf rest ((handleKeyDown idOf k st).1) := rfl
      rw [hfold]
      exact hrec

theorem keyStroke_pending (debounceMs minQueryLength : Int) (t dl : Nat)
    (v w : String) (log : List (Nat × String)) (h : t < dl) :
    keyStroke debounceMs minQueryLength ⟨some (dl, v), log⟩ (t, w) =
      ⟨some (t + (validDebounceMs debounceMs).toNat, w), log⟩ := by
  simp [keyStroke, fireDue, Nat.not_le.mpr h]

theorem burst_foldl (debounceMs minQueryLength : Int) :
    ∀ (events : List (Nat × String)) (t : Nat) (v : String)
      (log : List (Nat × String)),
      withinBurst (validDebounceMs debounceMs).toNat ((t, v) :: events) = true →
      events.foldl (keyStroke debounceMs minQueryLength)
          ⟨some (t + (validDebounceMs debounceMs).toNat, v), log⟩ =
        ⟨some ((events.getLastD (t, v)).1 + (validDebounceMs debounceMs).toNat,
            (events.getLastD (t, v)).2), log⟩ := by
  intro events
  induction events with
  | nil => intro t v log _; rfl
  | cons e rest ih =>
      intro t v log hb
      rcases e with ⟨t', v'⟩
      simp only [withinBurst, Bool.and_eq_true, decide_eq_true_eq] at hb
      obtain ⟨h1, h2⟩ := hb
      rw [List.foldl_cons, keyStroke_pending debounceMs minQueryLength t' _ v v' log h1,
        ih t' v' log (by simpa [withinBurst] using h2), List.getLastD_cons]

/-! ## Claim C1: staleness. -/

/-- C1, counterexample: the code has no staleness guard.  Fetch A (the first
pending entry, for query `"a"`) is issued, then fetch B (for query `"ab"`);
B resolves first and its item `B` is displayed; when A then resolves late,
its resolution is applied unconditionally and the displayed result set
becomes A's items, not B's — where the claim requires it to stay B's. -/
theorem stale_resolution_cex :
    (mrun [.input "a", .fire, .input "ab", .fire,
        .resolveOk 1 [Item.mk "B"], .resolveOk 0 [Item.mk "A"]]).st.results =
      [Item.mk "A"] ∧
    (mrun [.input "a", .fire, .input "ab", .fire,
        .resolveOk 1 [Item.mk "B"]]).st.results = [Item.mk "B"] ∧
    [Item.mk "A"] ≠ [Item.mk "B"] := by
  decide

/-- C1, amended: there is no staleness discard — every fetch resolution,
stale or not, unconditionally replaces the result set, so the displayed
result set is that of whichever fetch resolved last, regardless of the order
in which the fetches were issued. -/
theorem resolution_last_write_wins {T : Type} (idOf : T → String) (cfg : Config)
    (m : Machine T) (i : Nat) (items : List T) (h : i < m.pending.length) :
    (stepEvent idOf cfg m (.resolveOk i items)).st.results = items := by
  simp [stepEvent, h, searchResolveOk]

/-- C1 witness: resolving the lone in-flight fetch replaces the result set
with that resolution's items. -/
theorem resolution_last_write_wins_witness :
    (stepEvent Item.id defaultConfig
        ⟨(initMachine Item).st, none, [("a", 10)]⟩
        (.resolveOk 0 [Item.mk "A"])).st.results = [Item.mk "A"] :=
  resolution_last_write_wins Item.id defaultConfig
    ⟨(initMachine Item).st, none, [("a", 10)]⟩ 0 [Item.mk "A"] (by decide)

/-! ## Claim C2: highlighted-index bounds. -/

/-- C2, counterexample: the highlighted index is not reset when the result
set changes on the fetch-failure path.  Reachable trace: a fetch succeeds
with two items, ArrowDown twice highlights index 1, a second fetch fails and
clears the result set — the index is still 1, which is neither −1 nor a
valid index into the now-empty result set. -/
theorem highlight_invariant_cex :
    (mrun [.input "a", .fire, .resolveOk 0 [Item.mk "x", Item.mk "y"],
        .key Key.arrowDown, .key Key.arrowDown, .input "a", .fire,
        .resolveErr 0 (JsErr.errorVal "boom")]).st.selectedIndex = 1 ∧
    (mrun [.input "a", .fire, .resolveOk 0 [Item.mk "x", Item.mk "y"],
        .key Key.arrowDown, .key Key.arrowDown, .input "a", .fire,
        .resolveErr 0 (JsErr.errorVal "boom")]).st.results = [] ∧
    ¬((1 : Int) = -1 ∨ (1 : Int) ≤ (([] : List Item).length : Int) - 1) := by
  decide

/-- C2, amended: in every reachable engine state the highlighted index is at
least −1; it is reset to −1 on every fetch success; and any sequence of
ArrowDown/ArrowUp events keeps it between −1 and `resultCount − 1` when it
starts in that range.  It is NOT reset on fetch failure or on the
below-minimum-query path, so after those the upper bound can be violated. -/
theorem highlight_bounds :
    (∀ events : List (MEvent Item), -1 ≤ (mrun events).st.selectedIndex) ∧
    (∀ (m : Machine Item) (i : Nat) (items : List Item), i < m.pending.length →
        (stepEvent Item.id defaultConfig m (.resolveOk i items)).st.selectedIndex
          = -1) ∧
    (∀ (st : EngineState Item) (ks : List Key),
        (∀ k ∈ ks, k = Key.arrowDown ∨ k = Key.arrowUp) →
        -1 ≤ st.selectedIndex → st.selectedIndex ≤ (st.results.length : Int) - 1 →
        -1 ≤ (applyKeys Item.id ks st).selectedIndex ∧
          (applyKeys Item.id ks st).selectedIndex ≤
            (st.results.length : Int) - 1) := by
  refine ⟨?_, ?_, ?_⟩
  · intro events
    exact run_selectedIndex_ge Item.id defaultConfig events (initMachine Item)
      (by decide)
  · intro m i items h
    simp [stepEvent, h, searchResolveOk]
  · intro st ks hks h1 h2
    exact (applyKeys_arrow_bounds Item.id ks st hks h1 h2).2

/-- C2 witness: the amended bounds evaluated on a concrete trace and on a
concrete ArrowUp from the no-highlight state. -/
theorem highlight_bounds_witness :
    -1 ≤ (mrun [.input "a", .fire]).st.selectedIndex ∧
    -1 ≤ (applyKeys Item.id [Key.arrowUp]
        (⟨"", [], false, false, -1, none⟩ : EngineState Item)).selectedIndex :=
  ⟨highlight_bounds.1 [.input "a", .fire],
   (highlight_bounds.2.2 ⟨"", [], false, false, -1, none⟩ [Key.arrowUp]
      (by decide) (by decide) (by decide)).1⟩

/-! ## Claim C5: debounce coalescing. -/

/-- C5, counterexample: a two-keystroke burst within the delay whose final
input value is empty invokes the fetch strategy zero times, not exactly once
— the fired debounced search takes the minimum-length guard path instead. -/
theorem debounce_cex :
    withinBurst (validDebounceMs DEBOUNCE_MS).toNat [(0, "ab"), (100, "")] = true ∧
    debounceRun DEBOUNCE_MS MIN_QUERY_LENGTH [(0, "ab"), (100, "")] = [] := by
  decide

/-- C5, amended: for any burst of keystrokes in which each keystroke arrives
within the (validated) debounce delay of the previous one, each new keystroke
cancels the pending timer, and after the quiet interval the fetch strategy is
invoked exactly once with the final keystroke's value — provided that value
meets the minimum query length; otherwise it is not invoked at all. -/
theorem debounce_coalescing (debounceMs minQueryLength : Int)
    (events : List (Nat × String)) (h : events ≠ [])
    (hb : withinBurst (validDebounceMs debounceMs).toNat events = true) :
    debounceRun debounceMs minQueryLength events =
      if belowMinQuery minQueryLength (events.getLast h).2 then []
      else [((events.getLast h).1 + (validDebounceMs debounceMs).toNat,
          (events.getLast h).2)] := by
  rcases events with _ | ⟨⟨t, v⟩, rest⟩
  · exact absurd rfl h
  · rw [List.getLast_eq_getLastD]
    unfold debounceRun
    rw [List.foldl_cons]
    have hfirst : keyStroke debounceMs minQueryLength ⟨none, []⟩ (t, v) =
        ⟨some (t + (validDebounceMs debounceMs).toNat, v), []⟩ := rfl
    rw [hfirst, burst_foldl debounceMs minQueryLength rest t v [] hb]
    simp only [flushTimer]
    split <;> simp

/-- C5 witness: a three-keystroke burst at times 0, 100, 250 under the
default configuration produces exactly one fetch, at time 550, with the
final value. -/
theorem debounce_coalescing_witness :
    debounceRun DEBOUNCE_MS MIN_QUERY_LENGTH [(0, "a"), (100, "ab"), (250, "abc")] =
      [(550, "abc")] := by
  rw [debounce_coalescing DEBOUNCE_MS MIN_QUERY_LENGTH
    [(0, "a"), (100, "ab"), (250, "abc")] (by decide) (by decide)]
  decide

/-! ## Claim C9: the mock search endpoint. -/

/-- C9, counterexample: `searchItems` does not truncate to the limit clamped
into [1,100].  At limit 0 the clamp would give 1, but the code replaces the
falsy 0 by the default 10 first: the query `"e"` matches all 8 mock items and
all 8 are returned, where the claim allows only 1. -/
theorem searchItems_limit_cex :
    searchItems "e" 0 ≠ searchItemsClaimed "e" 0 ∧
    (searchItems "e" 0).length = 8 ∧ (searchItemsClaimed "e" 0).length = 1 := by
  decide

/-- C9, amended: `searchItems` returns the mock items whose concatenated
label/value/category/description text contains the trimmed, lower-cased query
as a substring, in mock-data order, truncated to the limit — where a zero
(falsy) limit is first replaced by the default 10 — clamped into [1,100];
a whitespace-only query returns the empty list. -/
theorem searchItems_spec (q : String) (l : Int) :
    searchItems q l = searchItemsAmended q l ∧
    (jsTrim q = "" → searchItems q l = []) := by
  refine ⟨rfl, fun h => ?_⟩
  have hq : sanitizeQuery q = "" := by
    simp only [sanitizeQuery, h]
    rfl
  simp [searchItems, hq]

/-- C9 witness: the amended description evaluated at the counterexample's
input and at a whitespace-only query. -/
theorem searchItems_spec_witness :
    searchItems "e" 0 = searchItemsAmended "e" 0 ∧ searchItems "   " 5 = [] :=
  ⟨(searchItems_spec "e" 0).1, (searchItems_spec "   " 5).2 (by decide)⟩

/-! ## Claim C10: the clear control. -/

/-- C10: `handleClear` resets the query to empty, clears the result set,
closes the dropdown and resets the highlighted index to −1, while leaving the
error field (and the loading flag) exactly as they were. -/
theorem clear_frame {T : Type} (st : EngineState T) :
    (handleClear st).query = "" ∧ (handleClear st).results = [] ∧
    (handleClear st).isOpen = false ∧ (handleClear st).selectedIndex = -1 ∧
    (handleClear st).error = st.error ∧ (handleClear st).isLoading = st.isLoading :=
  ⟨rfl, rfl, rfl, rfl, rfl, rfl⟩

/-- C10 witness: clearing a state that carries an error message keeps that
same error message. -/
theorem clear_frame_witness :
    (handleClear (⟨"a", [Item.mk "x"], true, false, 0,
        some "Failed to fetch search results"⟩ : EngineState Item)).error =
      some "Failed to fetch search results" :=
  (clear_frame ⟨"a", [Item.mk "x"], true, false, 0,
      some "Failed to fetch search results"⟩).2.2.2.2.1

/-! ## Claim C7: Escape. -/

/-- C7, counterexample: from a reachable open state holding one result,
pressing Escape leaves the result set untouched — it is not cleared as the
claim states. -/
theorem escape_retains_results_cex :
    (mrun [.input "a", .fire, .resolveOk 0 [Item.mk "x"],
        .key Key.escape]).st.results = [Item.mk "x"] ∧
    (mrun [.input "a", .fire, .resolveOk 0 [Item.mk "x"],
        .key Key.escape]).st.isOpen = false ∧
    [Item.mk "x"] ≠ ([] : List Item) := by
  decide

/-- C7, amended: pressing Escape in any state closes the dropdown and resets
the highlighted index to none (−1), but retains the result set (and leaves
query, error and loading untouched, selecting nothing). -/
theorem escape_contract {T : Type} (idOf : T → String) (st : EngineState T) :
    (handleKeyDown idOf Key.escape st).1.isOpen = false ∧
    (handleKeyDown idOf Key.escape st).1.selectedIndex = -1 ∧
    (handleKeyDown idOf Key.escape st).1.results = st.results ∧
    (handleKeyDown idOf Key.escape st).1.query = st.query ∧
    (handleKeyDown idOf Key.escape st).1.error = st.error ∧
    (handleKeyDown idOf Key.escape st).1.isLoading = st.isLoading ∧
    (handleKeyDown idOf Key.escape st).2 = none :=
  ⟨rfl, rfl, rfl, rfl, rfl, rfl, rfl⟩

/-- C7 witness: the amended Escape contract evaluated on a concrete open
state. -/
theorem escape_contract_witness :
    (handleKeyDown Item.id Key.escape
        (⟨"a", [Item.mk "x"], true, false, 0, none⟩ : EngineState Item)).1.results =
      [Item.mk "x"] :=
  (escape_contract Item.id ⟨"a", [Item.mk "x"], true, false, 0, none⟩).2.2.1

/-! ## Claim C3: fetch failure. -/

/-- C3, counterexample: a fetch rejection does not close the dropdown.  In a
reachable trace the dropdown is open when a later fetch fails; after the
failure the generic error is set but `isOpen` is still `true`, where the
claim requires the dropdown to be closed. -/
theorem fetch_failure_cex :
    (mrun [.input "a", .fire, .resolveOk 0 [Item.mk "x"], .input "ab", .fire,
        .resolveErr 0 (JsErr.errorVal "boom")]).st.error =
      some "Failed to fetch search results" ∧
    (mrun [.input "a", .fire, .resolveOk 0 [Item.mk "x"], .input "ab", .fire,
        .resolveErr 0 (JsErr.errorVal "boom")]).st.isOpen = true := by
  decide

/-- C3, amended: whenever the fetch strategy rejects, the engine clears the
result set, sets the user-visible error to the fixed generic message (the
same string for every thrown value, so no exception detail can appear in it),
invokes the error callback with the causal error (the thrown value itself
when it is an `Error`, else its wrapping in one), and sets loading back to
false; the dropdown open-state, however, is left unchanged, not closed. -/
theorem fetch_failure_contract {T : Type} (e : JsErr) (st : EngineState T) :
    (searchResolveErr e st).1.results = [] ∧
    (searchResolveErr e st).1.isOpen = st.isOpen ∧
    (searchResolveErr e st).1.error = some "Failed to fetch search results" ∧
    (searchResolveErr e st).1.isLoading = false ∧
    (searchResolveErr e st).2 = coerceErr e ∧
    (∀ msg, e = JsErr.errorVal msg → (searchResolveErr e st).2 = e) := by
  refine ⟨rfl, rfl, rfl, rfl, rfl, fun msg h => ?_⟩
  subst h
  rfl

/-- C3 witness: the failure contract evaluated at a concrete `Error` value
and a concrete open, loading state. -/
theorem fetch_failure_contract_witness :
    (searchResolveErr (JsErr.errorVal "boom")
        (⟨"a", [Item.mk "x"], true, true, 0, none⟩ : EngineState Item)).1.isLoading
        = false ∧
    (searchResolveErr (JsErr.errorVal "boom")
        (⟨"a", [Item.mk "x"], true, true, 0, none⟩ : EngineState Item)).2 =
      JsErr.errorVal "boom" :=
  ⟨(fetch_failure_contract (JsErr.errorVal "boom")
      ⟨"a", [Item.mk "x"], true, true, 0, none⟩).2.2.2.1,
   (fetch_failure_contract (JsErr.errorVal "boom")
      ⟨"a", [Item.mk "x"], true, true, 0, none⟩).2.2.2.2.2 "boom" rfl⟩

/-! ## Claim C4: selection. -/

/-- C4: committing result `i` by Enter while highlighted at `i` is the very
same step as the pointer-click path `handleSelectItem results[i]`; either way
the selection callback receives exactly `results[i]`, the engine ends closed
with an empty result set and highlighted index −1, and the query becomes the
selected item's id. -/
theorem selection_contract {T : Type} (idOf : T → String) (st : EngineState T)
    (i : Nat) (hi : i < st.results.length)
    (hsel : st.selectedIndex = (i : Int)) :
    handleKeyDown idOf Key.enter st = handleSelectItem idOf st.results[i] st ∧
    (handleSelectItem idOf st.results[i] st).2 = some st.results[i] ∧
    (handleSelectItem idOf st.results[i] st).1.query = idOf st.results[i] ∧
    (handleSelectItem idOf st.results[i] st).1.isOpen = false ∧
    (handleSelectItem idOf st.results[i] st).1.results = [] ∧
    (handleSelectItem idOf st.results[i] st).1.selectedIndex = -1 := by
  refine ⟨?_, rfl, rfl, rfl, rfl, rfl⟩
  have h0 : (0 : Int) ≤ st.selectedIndex := by omega
  have htn : st.selectedIndex.toNat = i := by omega
  simp [handleKeyDown, h0, htn, List.getElem?_eq_getElem hi]

/-- C4 witness: selecting index 1 of a two-item result set by Enter notifies
the callback with the second item and closes the engine. -/
theorem selection_contract_witness :
    handleKeyDown Item.id Key.enter
        (⟨"a", [Item.mk "x", Item.mk "y"], true, false, 1, none⟩ : EngineState Item) =
      handleSelectItem Item.id (Item.mk "y")
        ⟨"a", [Item.mk "x", Item.mk "y"], true, false, 1, none⟩ :=
  (selection_contract Item.id ⟨"a", [Item.mk "x", Item.mk "y"], true, false, 1, none⟩
    1 (by decide) (by decide)).1

/-! ## Claim C6: minimum-length guard. -/

/-- C6: when the debounce timer fires on a query strictly shorter than the
configured minimum length (default 1: `defaultConfig.minQueryLength = 1`),
no fetch is issued (the in-flight list is untouched), the result set is
cleared, the dropdown closed and the error cleared, and the loading flag is
not touched — a purely local path. -/
theorem min_length_guard {T : Type} (idOf : T → String) (cfg : Config)
    (m : Machine T) (v : String) (ht : m.timer = some v)
    (hlt : (v.length : Int) < cfg.minQueryLength) :
    (stepEvent idOf cfg m .fire).pending = m.pending ∧
    (stepEvent idOf cfg m .fire).st.results = [] ∧
    (stepEvent idOf cfg m .fire).st.isOpen = false ∧
    (stepEvent idOf cfg m .fire).st.error = none ∧
    (stepEvent idOf cfg m .fire).st.isLoading = m.st.isLoading ∧
    defaultConfig.minQueryLength = 1 := by
  have hguard : belowMinQuery cfg.minQueryLength v = true := by
    simp only [belowMinQuery, validMinQueryLength, decide_eq_true_eq]
    omega
  simp [stepEvent, ht, hguard, searchGuardApply, defaultConfig, MIN_QUERY_LENGTH]

/-- C6 witness: the guard evaluated on the empty query under the default
configuration. -/
theorem min_length_guard_witness :
    (stepEvent Item.id defaultConfig
        { initMachine Item with timer := some "" } .fire).pending = [] ∧
    (stepEvent Item.id defaultConfig
        { initMachine Item with timer := some "" } .fire).st.isOpen = false :=
  ⟨((min_length_guard Item.id defaultConfig _ "" rfl (by decide)).1).trans rfl,
   (min_length_guard Item.id defaultConfig
      { initMachine Item with timer := some "" } "" rfl (by decide)).2.2.1⟩

/-! ## Claim C8: configuration clamping. -/

/-- C8: invalid configuration is clamped, not rejected: `validMaxResults`
always lies in [1,100] and is exactly the limit recorded for the fetch the
engine issues, and a negative debounce delay is clamped to 0. -/
theorem config_clamping (cfg : Config) (m : Machine Item) (v : String)
    (ht : m.timer = some v)
    (hguard : belowMinQuery cfg.minQueryLength v = false) :
    1 ≤ validMaxResults cfg.maxResults ∧ validMaxResults cfg.maxResults ≤ 100 ∧
    (stepEvent Item.id cfg m .fire).pending =
      m.pending ++ [(v, validMaxResults cfg.maxResults)] ∧
    0 ≤ validDebounceMs cfg.debounceMs ∧
    (cfg.debounceMs < 0 → validDebounceMs cfg.debounceMs = 0) := by
  refine ⟨?_, ?_, ?_, ?_, fun h => ?_⟩
  · unfold validMaxResults
    omega
  · unfold validMaxResults
    omega
  · simp [stepEvent, ht, hguard]
  · unfold validDebounceMs
    omega
  · unfold validDebounceMs
    omega

/-- C8 witness: an out-of-range `maxResults` of 500 is clamped to 100 and
passed as the issued fetch's limit; a debounce of −5 is clamped to 0. -/
theorem config_clamping_witness :
    validMaxResults 500 ≤ 100 ∧
    (stepEvent Item.id ⟨500, -5, 1⟩
        { initMachine Item with timer := some "a" } .fire).pending =
      [] ++ [("a", validMaxResults 500)] ∧
    ((-5 : Int) < 0 → validDebounceMs (-5) = 0) :=
  ⟨(config_clamping ⟨500, -5, 1⟩ { initMachine Item with timer := some "a" }
      "a" rfl (by decide)).2.1,
   (config_clamping ⟨500, -5, 1⟩ { initMachine Item with timer := some "a" }
      "a" rfl (by decide)).2.2.1,
   (config_clamping ⟨500, -5, 1⟩ { initMachine Item with timer := some "a" }
      "a" rfl (by decide)).2.2.2.2⟩

end Typeahead
